import Mathlib

/-!
Verification of the taxifare-website demo (`app.py`).

The file shallowly embeds the core logic of the Streamlit app:
coordinates are exact rationals (the Python floats hold decimal UI
values; we reason in exact arithmetic), HTTP calls are modelled by
passing the response (status code plus parsed payload) as an explicit
argument, and Streamlit session state is an explicit record threaded
through the handlers.  UI-only string fields (address labels and query
echoes, which just mirror the coordinate state as formatted text) are
omitted from the state record; the claims under study concern the
coordinate state, the suggestion lists and the throttle timestamps.
-/

namespace TaxiFare

/-- A latitude/longitude pair, as stored in `st.session_state.pickup` /
`st.session_state.dropoff` (`{"lat": ..., "lng": ...}`). -/
structure GeoPoint where
  lat : ℚ
  lng : ℚ
deriving DecidableEq, Repr

/-- Squared planar degree distance.  `math.hypot (math.dist)` in the source
computes `Real.sqrt` of this quantity; all comparisons and scalings of those
hypotenuses are expressed through `dist2` plus `Real.sqrt` below. -/
def dist2 (a b : GeoPoint) : ℚ :=
  (a.lat - b.lat) ^ 2 + (a.lng - b.lng) ^ 2

/-- The Euclidean distance in raw degree units (`math.hypot` / `math.dist`). -/
noncomputable def euclidean_deg (a b : GeoPoint) : ℝ :=
  Real.sqrt ((dist2 a b : ℚ) : ℝ)

/-- The session state touched by the map-click handler: the two markers and
the `last_click` dedup record (a `(lat, lng)` tuple in the source). -/
structure TripState where
  pickup : GeoPoint
  dropoff : GeoPoint
  last_click : Option (ℚ × ℚ)
deriving DecidableEq, Repr

/-- Nearest-marker assignment, `app.py` lines 312-321: compare
`math.hypot(click - pickup)` with `math.hypot(click - dropoff)` and move the
nearer marker to the click.  Since `Real.sqrt` is monotone, the source's
comparison of hypotenuses is exactly the comparison of the squared distances
(`hypot_le_iff_dist2_le` below proves this equivalence). -/
def resolveClick (c : GeoPoint) (s : TripState) : TripState :=
  if dist2 c s.pickup ≤ dist2 c s.dropoff then
    { s with pickup := c }
  else
    { s with dropoff := c }

/-- The dedup epsilon `1e-10` of `app.py` line 310. -/
def clickEps : ℚ := 1 / 10000000000

/-- The full click handler, `app.py` lines 308-322: process the click only
when there is no previous click or it differs from the previous one by more
than `1e-10` in either coordinate; on processing, record it in `last_click`
and run the nearest-marker assignment. -/
def handleClick (c : GeoPoint) (s : TripState) : TripState :=
  match s.last_click with
  | none => resolveClick c { s with last_click := some (c.lat, c.lng) }
  | some last =>
      if clickEps < |last.1 - c.lat| ∨ clickEps < |last.2 - c.lng| then
        resolveClick c { s with last_click := some (c.lat, c.lng) }
      else
        s

/-- Round half to even (Python's `round` tie-breaking rule). -/
def roundHalfEven (x : ℚ) : ℤ :=
  let f := ⌊x⌋
  let r := x - (f : ℚ)
  if r < 1 / 2 then f
  else if 1 / 2 < r then f + 1
  else if f % 2 = 0 then f else f + 1

/-- Python's `round(x, 2)` on exact values. -/
def round2 (x : ℚ) : ℚ :=
  ((roundHalfEven (x * 100) : ℤ) : ℚ) / 100

/-- `local_fare_estimate` of `app.py` lines 351-353. -/
def local_fare_estimate (distance_km : ℚ) (passengers : ℤ) : ℚ :=
  let base : ℚ := 3.0
  let per_km : ℚ := 1.8
  let pax_fee : ℚ := ((max 0 (passengers - 1) : ℤ) : ℚ) * 0.5
  round2 (base + per_km * max distance_km 0 + pax_fee)

/-- The fare formula exactly as the spec words it (base, per-km rate and
extra-passenger fee, rounded to 2 decimal places); compared against the
source function `local_fare_estimate` for the refinement claim. -/
def specLocalFare (distanceKm : ℚ) (passengers : ℤ) : ℚ :=
  round2 (3.0 + 1.8 * max distanceKm 0 + ((max 0 (passengers - 1) : ℤ) : ℚ) * 0.5)

/-! ## JSON values and the tolerant fare-key lookup -/

/-- A JSON scalar as the fare endpoint may return it.  `jnull` doubles as
Python's `None`, which is also what `dict.get` yields for an absent key. -/
inductive JVal where
  | jnull : JVal
  | jnum : ℚ → JVal
  | jstr : String → JVal
  | jbool : Bool → JVal
deriving DecidableEq, Repr

/-- A JSON object, as an association list of key/value pairs. -/
abbrev JObj := List (String × JVal)

/-- Python truthiness of a JSON scalar (`None`, `0`, `""` and `False` are
falsy). -/
def truthy : JVal → Bool
  | JVal.jnull => false
  | JVal.jnum q => q ≠ 0
  | JVal.jstr s => s ≠ ""
  | JVal.jbool b => b

/-- Python's `x or y`: returns `x` when `x` is truthy, else `y`. -/
def por (a b : JVal) : JVal :=
  if truthy a then a else b

/-- `result.get(k)`: the value stored under `k`, or `None` when absent. -/
def getKey (r : JObj) (k : String) : JVal :=
  (List.lookup k r).getD JVal.jnull

/-- Whether the key occurs in the object at all. -/
def hasKey (r : JObj) (k : String) : Bool :=
  (List.lookup k r).isSome

def fareKey : String := "fare"

def predictionKey : String := "prediction"

def predKey : String := "pred"

def yPredKey : String := "y_pred"

/-- The fare extraction of `app.py` line 436:
`result.get("fare") or result.get("prediction") or result.get("y_pred")`. -/
def fare_lookup (result : JObj) : JVal :=
  por (por (getKey result fareKey) (getKey result predictionKey)) (getKey result yPredKey)

/-- The display test of `app.py` line 437 (`if fare is not None`): the API
fare metric is shown exactly when the extracted value is not `None`. -/
def fareShown (result : JObj) : Bool :=
  fare_lookup result != JVal.jnull

/-- First key of the list that is present in the object, with its value. -/
def firstPresentKey (r : JObj) : List String → Option JVal
  | [] => none
  | k :: ks => if hasKey r k then some (getKey r k) else firstPresentKey r ks

/-- First key of the list whose value is truthy, with its value. -/
def firstTruthyKey (r : JObj) : List String → Option JVal
  | [] => none
  | k :: ks => if truthy (getKey r k) then some (getKey r k) else firstTruthyKey r ks

/-- The lookup exactly as the spec words it: the first *present* field among
the ordered key list `fare`, `prediction`, `pred`, `y_pred`.  Compared with
the source's `fare_lookup` for the refutation of that wording. -/
def specFareLookup (r : JObj) : Option JVal :=
  firstPresentKey r [fareKey, predictionKey, predKey, yPredKey]

/-! ## OSRM route resolver and fare-API caller

Each HTTP call is modelled by passing the response explicitly: the HTTP
status code together with the parsed JSON payload.  The Python code raises
distinct exceptions (a dedicated `RuntimeError` message for 429, the
`requests.raise_for_status` error for other non-2xx statuses, and an
"Invalid OSRM response" `RuntimeError` for a 2xx payload without a route);
the error type below has one constructor per kind. -/

/-- One entry of OSRM's `routes` array: total distance in meters, total
duration in seconds, geometry as longitude-first coordinate pairs. -/
structure OsrmRoute where
  distance : ℚ
  duration : ℚ
  geometry : List (ℚ × ℚ)
deriving DecidableEq, Repr

/-- The parsed OSRM payload: its `code` field and its `routes` array. -/
structure OsrmResponse where
  code : String
  routes : List OsrmRoute
deriving DecidableEq, Repr

/-- The failure kinds of `call_osrm_route`, `app.py` lines 338-343. -/
inductive RouteError where
  | rateLimited : String → RouteError
  | httpError : ℕ → RouteError
  | malformedResponse : String → RouteError
deriving DecidableEq, Repr

/-- The resolver's normalized result: kilometers, minutes, latitude-first
path. -/
structure RouteResult where
  distanceKm : ℚ
  durationMin : ℚ
  path : List (ℚ × ℚ)
deriving DecidableEq, Repr

def osrmRateMsg : String := "OSRM rate limit (429). Please slow down or cache more."

def okCode : String := "Ok"

/-- `call_osrm_route` of `app.py` lines 328-349, applied to the backend's
response (status plus parsed body): 429 raises the dedicated rate-limit
error; other `>= 400` statuses raise via `raise_for_status`; a 2xx payload
whose `code` is not `"Ok"` or whose `routes` list is empty raises the
"Invalid OSRM response" error; otherwise meters become kilometers (/1000),
seconds become minutes (/60) and every `[lon, lat]` geometry pair is swapped
to `[lat, lon]`. -/
def call_osrm_route (status : ℕ) (resp : OsrmResponse) : Except RouteError RouteResult :=
  if status = 429 then Except.error (RouteError.rateLimited osrmRateMsg)
  else if 400 ≤ status then Except.error (RouteError.httpError status)
  else if resp.code ≠ okCode then Except.error (RouteError.malformedResponse resp.code)
  else
    match resp.routes with
    | [] => Except.error (RouteError.malformedResponse resp.code)
    | r :: _ =>
        Except.ok
          { distanceKm := r.distance / 1000
            durationMin := r.duration / 60
            path := r.geometry.map fun c => (c.2, c.1) }

/-- The failure kinds of `call_fare_api`, `app.py` lines 366-372. -/
inductive FareError where
  | rateLimited : String → FareError
  | httpError : ℕ → FareError
deriving DecidableEq, Repr

def fareRateMsg : String := "Fare API returned 429 (Too Many Requests). Try later."

/-- `call_fare_api` of `app.py` lines 366-372, applied to the endpoint's
response: 429 raises the dedicated rate-limit error, other `>= 400` statuses
raise via `raise_for_status`, otherwise the parsed JSON body is returned. -/
def call_fare_api (status : ℕ) (body : JObj) : Except FareError JObj :=
  if status = 429 then Except.error (FareError.rateLimited fareRateMsg)
  else if 400 ≤ status then Except.error (FareError.httpError status)
  else Except.ok body

/-- Whether a route-resolver outcome is the rate-limited error. -/
def isRateLimitedRoute : Except RouteError RouteResult → Bool
  | Except.error (RouteError.rateLimited _) => true
  | _ => false

/-- Whether a fare-API outcome is the rate-limited error. -/
def isRateLimitedFare : Except FareError JObj → Bool
  | Except.error (FareError.rateLimited _) => true
  | _ => false

/-! ## Caller-level routing fallback and the predict flow -/

/-- The route data the predict action works with: distance and duration live
in ℝ because the straight-line fallback scales a Euclidean hypotenuse. -/
structure TripRoute where
  distanceKm : ℝ
  durationMin : ℝ
  path : List (ℚ × ℚ)

/-- The straight-line fallback of `app.py` lines 397-407:
`dist_km = math.dist(pickup, dropoff) * 111`, `dur_min = dist_km / (22/60)`,
and the two-point path `[pickup, dropoff]`. -/
noncomputable def fallback_route (p d : GeoPoint) : TripRoute :=
  let dist_km := euclidean_deg p d * 111
  { distanceKm := dist_km
    durationMin := dist_km / (22 / 60)
    path := [(p.lat, p.lng), (d.lat, d.lng)] }

/-- The `try/except` around the OSRM call, `app.py` lines 390-407: a
successful resolver result is used as is, any `RouteError` is replaced by
the straight-line fallback. -/
noncomputable def route_with_fallback (p d : GeoPoint)
    (res : Except RouteError RouteResult) : TripRoute :=
  match res with
  | Except.ok r => { distanceKm := (r.distanceKm : ℝ), durationMin := (r.durationMin : ℝ), path := r.path }
  | Except.error _ => fallback_route p d

def pickupBoundsErr : String := "Pickup: coordinates out of bounds."

def dropoffBoundsErr : String := "Dropoff: coordinates out of bounds."

def passengersErr : String := "Passengers must be ≥ 1."

/-- Whether a point passes the bounds check of `app.py` line 383. -/
def inBounds (p : GeoPoint) : Prop :=
  -90 ≤ p.lat ∧ p.lat ≤ 90 ∧ -180 ≤ p.lng ∧ p.lng ≤ 180

instance (p : GeoPoint) : Decidable (inBounds p) := by
  unfold inBounds; infer_instance

/-- The validation of `app.py` lines 381-386: collect one message per
out-of-bounds endpoint, then one for a passenger count below 1. -/
def validate (pickup dropoff : GeoPoint) (passenger_count : ℤ) : List String :=
  (if inBounds pickup then [] else [pickupBoundsErr]) ++
    (if inBounds dropoff then [] else [dropoffBoundsErr]) ++
      (if passenger_count < 1 then [passengersErr] else [])

/-- What the predict branch produced. -/
inductive PredictOutcome where
  | blocked : List String → PredictOutcome
  | completed : TripRoute → Except FareError JObj → PredictOutcome

/-- The predict branch together with which network calls it made. -/
structure FlowTrace where
  outcome : PredictOutcome
  osrmCalled : Bool
  fareApiCalled : Bool

/-- The `predict_now` branch, `app.py` lines 380-446: when validation
produces any error the messages are reported and nothing else happens (no
routing call, no fare call); otherwise the route (OSRM result or fallback)
is computed and the fare API is called.  The two `Except` arguments stand
for the responses the two endpoints would give when called. -/
noncomputable def predict_flow (pickup dropoff : GeoPoint) (passenger_count : ℤ)
    (routeRes : Except RouteError RouteResult) (fareRes : Except FareError JObj) : FlowTrace :=
  let errs := validate pickup dropoff passenger_count
  if errs = [] then
    { outcome := PredictOutcome.completed (route_with_fallback pickup dropoff routeRes) fareRes
      osrmCalled := true
      fareApiCalled := true }
  else
    { outcome := PredictOutcome.blocked errs, osrmCalled := false, fareApiCalled := false }

/-! ## Autocomplete suggestions and throttling -/

/-- One normalized autocomplete suggestion. -/
structure Suggestion where
  label : String
  lat : ℚ
  lng : ℚ
deriving DecidableEq, Repr

/-- The session state touched by `get_suggestions`: the two suggestion lists
and the per-field timestamps of the last dispatched provider call. -/
structure AutoState where
  pickup_suggestions : List Suggestion
  dropoff_suggestions : List Suggestion
  pickup_last_autocomplete : ℚ
  dropoff_last_autocomplete : ℚ
deriving DecidableEq, Repr

/-- `get_suggestions` of `app.py` lines 162-190, with the provider call
modelled by its result (`Except.error` standing for a raised provider
exception, which the source catches and turns into an empty list).  Returns
the updated state together with whether a provider call was dispatched.
Within the cooldown (`now - last < 0.6`) the function returns immediately:
no call, and the stored suggestion lists are retained. -/
def get_suggestions (now : ℚ) ( is_pickup : Bool)
    (provider : Except String (List Suggestion)) (s : AutoState) : AutoState × Bool :=
  let last := if is_pickup then s.pickup_last_autocomplete else s.dropoff_last_autocomplete
  if now - last < 6 / 10 then (s, false)
  else
    let s1 :=
      if is_pickup then { s with pickup_last_autocomplete := now }
      else { s with dropoff_last_autocomplete := now }
    let suggestions :=
      match provider with
      | Except.ok l => l
      | Except.error _ => []
    if is_pickup then ({ s1 with pickup_suggestions := suggestions }, true)
    else ({ s1 with dropoff_suggestions := suggestions }, true)

/-! ## Theorems -/

/-- Squared degree distances are nonnegative. -/
theorem dist2_nonneg (a b : GeoPoint) : 0 ≤ dist2 a b := by
  unfold dist2; positivity

/-- Comparing the Euclidean hypotenuses (`math.hypot`) is the same as
comparing the squared distances: `Real.sqrt` is monotone. -/
theorem hypot_le_iff_dist2_le (c p d : GeoPoint) :
    euclidean_deg c p ≤ euclidean_deg c d ↔ dist2 c p ≤ dist2 c d := by
  unfold euclidean_deg
  constructor
  · intro h
    by_contra hlt
    push_neg at hlt
    have h2 : ((dist2 c d : ℚ) : ℝ) < ((dist2 c p : ℚ) : ℝ) := by exact_mod_cast hlt
    have hs := Real.sqrt_lt_sqrt (by exact_mod_cast dist2_nonneg c d) h2
    linarith
  · intro h
    exact Real.sqrt_le_sqrt (by exact_mod_cast h)

/-- Claim C1: the map-click handler compares the planar Euclidean distances (in
raw degree units) from the click to pickup and to dropoff, and moves exactly
one marker to the click: pickup when its distance is less than or equal to
the dropoff distance (ties go to pickup), dropoff otherwise; the other
marker and the rest of the state are untouched. -/
theorem click_nearest_assignment (c : GeoPoint) (s : TripState) :
    (euclidean_deg c s.pickup ≤ euclidean_deg c s.dropoff ↔
        dist2 c s.pickup ≤ dist2 c s.dropoff) ∧
      (if dist2 c s.pickup ≤ dist2 c s.dropoff then
          resolveClick c s = { s with pickup := c }
        else
          resolveClick c s = { s with dropoff := c }) := by
  refine ⟨hypot_le_iff_dist2_le c s.pickup s.dropoff, ?_⟩
  by_cases h : dist2 c s.pickup ≤ dist2 c s.dropoff <;> simp [resolveClick, h]

/-- Claim C2: the local fare estimate is the pure function
`round(3.0 + 1.8 * max(distanceKm, 0) + max(0, passengers - 1) * 0.5, 2)`
(determinism is inherent: it is a function of its two arguments), and in
particular `local_fare_estimate 0 1 = 3.00` and
`local_fare_estimate 10 3 = 22.00`. -/
theorem local_fare_estimate_spec (d : ℚ) (p : ℤ) :
    local_fare_estimate d p = specLocalFare d p ∧
      local_fare_estimate 0 1 = 3 ∧ local_fare_estimate 10 3 = 22 := by
  refine ⟨rfl, ?_, ?_⟩ <;> norm_num [local_fare_estimate, round2, roundHalfEven]

/-- Claim C4: on any `RouteError` the caller falls back to the straight-line
route: distance is the Euclidean degree distance times 111, duration is that
distance divided by `22/60`, and the path is the two-point straight segment
from pickup to dropoff. -/
theorem route_fallback_straight_line (p d : GeoPoint) (e : RouteError) :
    route_with_fallback p d (Except.error e) =
      { distanceKm := euclidean_deg p d * 111
        durationMin := euclidean_deg p d * 111 / (22 / 60)
        path := [(p.lat, p.lng), (d.lat, d.lng)] } := rfl

/-- Claim C5: on a successful routing response (2xx status, `code = "Ok"`,
nonempty `routes`), the resolver divides meters by 1000 and seconds by 60
and emits the backend's longitude-first geometry with every pair transposed
to latitude-first: position `i` of the output path is the swap of input
pair `i`. -/
theorem osrm_swap_and_units (status : ℕ) (resp : OsrmResponse) (r : OsrmRoute)
    (rs : List OsrmRoute) (h1 : status < 400) (h2 : resp.code = okCode)
    (h3 : resp.routes = r :: rs) :
    call_osrm_route status resp =
      Except.ok
        { distanceKm := r.distance / 1000
          durationMin := r.duration / 60
          path := r.geometry.map fun c => (c.2, c.1) } ∧
      ∀ i (hi : i < r.geometry.length)
        (hi2 : i < (r.geometry.map fun c => (c.2, c.1)).length),
        (r.geometry.map fun c => (c.2, c.1)).get ⟨i, hi2⟩ =
          ((r.geometry.get ⟨i, hi⟩).2, (r.geometry.get ⟨i, hi⟩).1) := by
  have hne : status ≠ 429 := by omega
  have hlt : ¬ 400 ≤ status := by omega
  constructor
  · simp [call_osrm_route, hne, hlt, h2, h3]
  · intro i hi hi2
    simp

/-- Witness for C5 at a concrete successful response. -/
theorem osrm_swap_and_units_witness :
    (200 < 400) ∧
      call_osrm_route 200 (OsrmResponse.mk okCode [OsrmRoute.mk 1000 120 [(10, 20), (30, 40)]]) =
        Except.ok
          { distanceKm := (1000 : ℚ) / 1000
            durationMin := (120 : ℚ) / 60
            path := ([((10 : ℚ), (20 : ℚ)), (30, 40)]).map fun c => (c.2, c.1) } :=
  ⟨by norm_num,
    (osrm_swap_and_units 200 (OsrmResponse.mk okCode [OsrmRoute.mk 1000 120 [(10, 20), (30, 40)]])
        (OsrmRoute.mk 1000 120 [(10, 20), (30, 40)]) [] (by norm_num) rfl rfl).1⟩

/-- `resolveClick` never touches the `last_click` field. -/
theorem resolveClick_last_click (c : GeoPoint) (t : TripState) :
    (resolveClick c t).last_click = t.last_click := by
  unfold resolveClick
  split <;> rfl

/-- A click within the dedup epsilon of the recorded previous click is a
no-op. -/
theorem handleClick_skip (c : GeoPoint) (s : TripState) (last : ℚ × ℚ)
    (hl : s.last_click = some last) (h1 : |last.1 - c.lat| ≤ clickEps)
    (h2 : |last.2 - c.lng| ≤ clickEps) : handleClick c s = s := by
  simp [handleClick, hl, not_lt.2 h1, not_lt.2 h2]

/-- After any click, either nothing changed or the click got recorded. -/
theorem handleClick_cases (c : GeoPoint) (s : TripState) :
    handleClick c s = s ∨ (handleClick c s).last_click = some (c.lat, c.lng) := by
  rcases hsl : s.last_click with _ | last
  · right
    simp [handleClick, hsl, resolveClick_last_click]
  · by_cases hc : clickEps < |last.1 - c.lat| ∨ clickEps < |last.2 - c.lng|
    · right
      simp [handleClick, hsl, hc, resolveClick_last_click]
    · left
      simp [handleClick, hsl, hc]

/-- Claim C6: a click whose coordinates both lie within `1e-10` of the
previously processed click leaves the whole click-handler state unchanged;
consequently running the handler twice on the same click equals running it
once (two consecutive identical clicks make one mutation). -/
theorem click_dedup (c : GeoPoint) (s : TripState) :
    (∀ last, s.last_click = some last → |last.1 - c.lat| ≤ clickEps →
        |last.2 - c.lng| ≤ clickEps → handleClick c s = s) ∧
      handleClick c (handleClick c s) = handleClick c s := by
  constructor
  · intro last hl h1 h2
    exact handleClick_skip c s last hl h1 h2
  · rcases handleClick_cases c s with h | h
    · rw [h]
      exact h
    · exact handleClick_skip c (handleClick c s) (c.lat, c.lng) h
        (by norm_num [clickEps]) (by norm_num [clickEps])

/-- Witness for C6: a repeated click at the origin is dropped. -/
theorem click_dedup_witness :
    handleClick (GeoPoint.mk 0 0)
        (TripState.mk (GeoPoint.mk 1 1) (GeoPoint.mk 2 2) (some (0, 0))) =
      TripState.mk (GeoPoint.mk 1 1) (GeoPoint.mk 2 2) (some (0, 0)) :=
  (click_dedup (GeoPoint.mk 0 0)
      (TripState.mk (GeoPoint.mk 1 1) (GeoPoint.mk 2 2) (some (0, 0)))).1
    (0, 0) rfl (by norm_num [clickEps]) (by norm_num [clickEps])

/-- Claim C7: when pickup or dropoff is out of bounds or the passenger
count is below 1, the predict action is blocked entirely: validation yields
a nonempty error list, the outcome reports that list, and neither the
routing backend nor the fare endpoint is called. -/
theorem predict_validation_blocks (pickup dropoff : GeoPoint) (pax : ℤ)
    (routeRes : Except RouteError RouteResult) (fareRes : Except FareError JObj)
    (h : ¬ inBounds pickup ∨ ¬ inBounds dropoff ∨ pax < 1) :
    validate pickup dropoff pax ≠ [] ∧
      predict_flow pickup dropoff pax routeRes fareRes =
        { outcome := PredictOutcome.blocked (validate pickup dropoff pax)
          osrmCalled := false
          fareApiCalled := false } := by
  have hne : validate pickup dropoff pax ≠ [] := by
    unfold validate
    rcases h with h | h | h <;> simp [h]
  refine ⟨hne, ?_⟩
  simp [predict_flow, hne]

/-- Witness for C7: latitude 95 is rejected before any network call. -/
theorem predict_validation_blocks_witness :
    (¬ inBounds (GeoPoint.mk 95 0) ∨ ¬ inBounds (GeoPoint.mk 40 (-73)) ∨ (1 : ℤ) < 1) ∧
      validate (GeoPoint.mk 95 0) (GeoPoint.mk 40 (-73)) 1 ≠ [] :=
  ⟨Or.inl (by norm_num [inBounds]),
    (predict_validation_blocks (GeoPoint.mk 95 0) (GeoPoint.mk 40 (-73)) 1
        (Except.ok (RouteResult.mk 0 0 [])) (Except.ok [])
        (Or.inl (by norm_num [inBounds]))).1⟩

/-- Claim C8: an HTTP 429 from either backend is classified as the
rate-limited error with its own dedicated message (the two messages are
distinct from each other), and no other status ever produces the
rate-limited classification — other failures are the generic transport or
malformed-response kinds. -/
theorem rate_limit_classified (s : ℕ) (resp : OsrmResponse) (body : JObj) :
    call_osrm_route 429 resp = Except.error (RouteError.rateLimited osrmRateMsg) ∧
      call_fare_api 429 body = Except.error (FareError.rateLimited fareRateMsg) ∧
      osrmRateMsg ≠ fareRateMsg ∧
      (s ≠ 429 → isRateLimitedRoute (call_osrm_route s resp) = false) ∧
      (s ≠ 429 → isRateLimitedFare (call_fare_api s body) = false) := by
  refine ⟨rfl, rfl, by decide, ?_, ?_⟩
  · intro hs
    simp only [call_osrm_route, if_neg hs]
    split
    · rfl
    · split
      · rfl
      · split <;> rfl
  · intro hs
    simp only [call_fare_api, if_neg hs]
    split <;> rfl

/-- Witness for C8 at status 500: not classified as rate-limited. -/
theorem rate_limit_classified_witness :
    ((500 : ℕ) ≠ 429) ∧
      isRateLimitedRoute (call_osrm_route 500 (OsrmResponse.mk okCode [])) = false ∧
      isRateLimitedFare (call_fare_api 500 []) = false :=
  ⟨by norm_num,
    (rate_limit_classified 500 (OsrmResponse.mk okCode []) []).2.2.2.1 (by norm_num),
    (rate_limit_classified 500 (OsrmResponse.mk okCode []) []).2.2.2.2 (by norm_num)⟩

/-- Claim C9: a suggestion request for a field arriving less than 0.6
seconds after the previous request for that field makes no provider call
and leaves both stored suggestion lists unchanged (retained, not
cleared). -/
theorem suggestions_throttle (now : ℚ) (f : Bool)
    (provider : Except String (List Suggestion)) (s : AutoState)
    (h : now - (if f then s.pickup_last_autocomplete else s.dropoff_last_autocomplete) < 6 / 10) :
    get_suggestions now f provider s = (s, false) ∧
      (get_suggestions now f provider s).1.pickup_suggestions = s.pickup_suggestions ∧
      (get_suggestions now f provider s).1.dropoff_suggestions = s.dropoff_suggestions := by
  have hg : get_suggestions now f provider s = (s, false) := by
    simp only [get_suggestions]
    rw [if_pos h]
  exact ⟨hg, by rw [hg], by rw [hg]⟩

/-- Witness for C9: a second request at the same timestamp is suppressed. -/
theorem suggestions_throttle_witness :
    ((0 : ℚ) - (if true then (0 : ℚ) else 0) < 6 / 10) ∧
      get_suggestions 0 true (Except.ok []) (AutoState.mk [] [] 0 0) =
        (AutoState.mk [] [] 0 0, false) :=
  ⟨by norm_num,
    (suggestions_throttle 0 true (Except.ok []) (AutoState.mk [] [] 0 0) (by norm_num)).1⟩

/-- A key that is absent reads as `None`. -/
theorem getKey_of_not_hasKey (r : JObj) (k : String) (h : hasKey r k = false) :
    getKey r k = JVal.jnull := by
  unfold hasKey at h
  unfold getKey
  rcases hl : List.lookup k r with _ | v
  · rfl
  · rw [hl] at h
    simp at h

/-- A truthy value is never `None`. -/
theorem truthy_ne_null (v : JVal) (h : truthy v = true) : v ≠ JVal.jnull := by
  intro hv
  subst hv
  simp [truthy] at h

/-- Counterexample to C3 as stated: the source's key chain has no `pred`
key, so an object carrying the fare only under `pred` is not extracted —
the code lands in the no-result branch while the claimed first-present-key
lookup (over `fare`, `prediction`, `pred`, `y_pred`) returns the fare. -/
theorem fare_key_lookup_counterexample :
    specFareLookup [(predKey, JVal.jnum 5)] = some (JVal.jnum 5) ∧
      fare_lookup [(predKey, JVal.jnum 5)] = JVal.jnull ∧
      fareShown [(predKey, JVal.jnum 5)] = false :=
  ⟨rfl, rfl, rfl⟩

/-- Claim C3 (amended): the extracted fare is the first *truthy* value
among the keys `fare` and `prediction`, and otherwise the value under
`y_pred` (absent keys reading as `None`); when none of the three keys is
present the result is `None`, the non-fatal no-result case in which the
API metric is not shown and the local estimate is displayed instead. -/
theorem fare_key_lookup_amended (r : JObj) :
    fare_lookup r = (firstTruthyKey r [fareKey, predictionKey]).getD (getKey r yPredKey) ∧
      (hasKey r fareKey = false → hasKey r predictionKey = false →
        hasKey r yPredKey = false → fare_lookup r = JVal.jnull ∧ fareShown r = false) := by
  constructor
  · by_cases h1 : truthy (getKey r fareKey) = true <;>
      by_cases h2 : truthy (getKey r predictionKey) = true <;>
        simp [fare_lookup, por, firstTruthyKey, h1, h2]
  · intro hf hp hy
    have gf := getKey_of_not_hasKey r fareKey hf
    have gp := getKey_of_not_hasKey r predictionKey hp
    have gy := getKey_of_not_hasKey r yPredKey hy
    simp [fare_lookup, fareShown, por, gf, gp, gy, truthy]

/-- Witness for the amended C3 at the empty response object. -/
theorem fare_key_lookup_amended_witness :
    hasKey [] fareKey = false ∧ fare_lookup [] = JVal.jnull ∧ fareShown [] = false :=
  ⟨rfl, (fare_key_lookup_amended []).2 rfl rfl rfl⟩

/-- Counterexample to C10 as stated: a response holding `0` under `y_pred`
is *displayed* as the API prediction ($0.00), because the final operand of
Python's `or` chain is returned regardless of truthiness and `0` is not
`None` — the no-fare branch is not taken. -/
theorem zero_fare_displayed_counterexample :
    fare_lookup [(yPredKey, JVal.jnum 0)] = JVal.jnum 0 ∧
      fareShown [(yPredKey, JVal.jnum 0)] = true :=
  ⟨rfl, rfl⟩

/-- Claim C10 (amended): a falsy value under `fare` or `prediction` falls
through to the next key, but the `y_pred` value is returned unconditionally
by the `or` chain; hence the API metric is shown iff `fare` or `prediction`
holds a truthy value or `y_pred` holds any non-`None` value — in particular
a zero fare under `y_pred` is displayed, while a zero under `fare` or
`prediction` alone is not. -/
theorem zero_fare_fallthrough (r : JObj) :
    (truthy (getKey r fareKey) = false → truthy (getKey r predictionKey) = false →
        fare_lookup r = getKey r yPredKey) ∧
      (fareShown r = true ↔
        (truthy (getKey r fareKey) = true ∨ truthy (getKey r predictionKey) = true ∨
          getKey r yPredKey ≠ JVal.jnull)) := by
  constructor
  · intro h1 h2
    simp [fare_lookup, por, h1, h2]
  · by_cases h1 : truthy (getKey r fareKey) = true
    · simp [fareShown, fare_lookup, por, h1, bne_iff_ne, truthy_ne_null _ h1]
    · by_cases h2 : truthy (getKey r predictionKey) = true
      · simp [fareShown, fare_lookup, por, h1, h2, bne_iff_ne, truthy_ne_null _ h2]
      · simp [fareShown, fare_lookup, por, h1, h2, bne_iff_ne]

/-- Witness for the amended C10: with only `y_pred` set, its value is the
one extracted. -/
theorem zero_fare_fallthrough_witness :
    truthy (getKey [(yPredKey, JVal.jnum 7)] fareKey) = false ∧
      fare_lookup [(yPredKey, JVal.jnum 7)] = getKey [(yPredKey, JVal.jnum 7)] yPredKey :=
  ⟨rfl, (zero_fare_fallthrough [(yPredKey, JVal.jnum 7)]).1 rfl rfl⟩

end TaxiFare
